import Mathlib

/-!
Verification of the error-boundary frontend
(`components/ErrorBoundary.tsx`, `pages/_app.tsx`).

The component code is embedded shallowly: the three class methods of
`ErrorBoundary` become pure Lean functions, the rendered UI becomes an
inductive tree, and the side effects of `componentDidCatch` (the console
log and the call to `Sentry.captureException`) become an explicit list of
steps. The dispatch performed by the hosting framework when a descendant
throws during render is not part of the repository; it is modelled from
the specification where needed and marked as such.
-/

/-- The error object carried by a thrown exception (`Error` in the source);
only its message is observable here. -/
structure ErrorObj where
  message : String
deriving DecidableEq, Repr

/-- `React.ErrorInfo`: the render-phase context handed to
`componentDidCatch` by the framework. -/
structure ErrorInfo where
  componentStack : String
deriving DecidableEq, Repr

/-- The structured metadata passed to `Sentry.captureException` in the
source: the object literal with the single field `extra: errorInfo`
(line 25 of `ErrorBoundary.tsx`). By construction it is never null. -/
structure Ctx where
  extra : ErrorInfo
deriving DecidableEq, Repr

/-- Click handlers appearing in the rendered UI. The only handler in the
source is `this.handleRetry`, wired to the button of the fallback view. -/
inductive Event where
  | retry
deriving DecidableEq, Repr

/-- Rendered UI trees (`ReactNode`): text nodes and elements with a tag,
a `className`, an optional click handler and child nodes. -/
inductive Html where
  | text : String → Html
  | elem : String → String → Option Event → List Html → Html
deriving Repr

/-- The component state, `interface State \x7b hasError: boolean \x7d`
(lines 3 to 5 of `ErrorBoundary.tsx`). -/
structure BoundaryState where
  hasError : Bool
deriving DecidableEq, Repr

/-- The constructor of `ErrorBoundary` (lines 12 to 15):
`this.state = \x7b hasError: false \x7d`. -/
def initialState : BoundaryState := { hasError := false }

/-- `static getDerivedStateFromError(): State` (lines 17 to 19). Note the
source gives it no parameter at all: the produced state does not depend on
the intercepted error. -/
def ErrorBoundary.getDerivedStateFromError : BoundaryState := { hasError := true }

/-- `handleRetry` (lines 28 to 30): `this.setState(\x7b hasError: false \x7d)`.
It writes only the state of the boundary itself. -/
def ErrorBoundary.handleRetry (_s : BoundaryState) : BoundaryState := { hasError := false }

/-- The fallback JSX returned when `hasError` is true (lines 34 to 45):
a `div` holding an `h2` heading, a `p` message and a `button` whose
`onClick` is `this.handleRetry`. -/
def fallbackView : Html :=
  Html.elem "div" "min-h-screen flex flex-col items-center justify-center bg-red-100 text-red-800" none
    [ Html.elem "h2" "text-3xl font-bold" none [Html.text "Oops! Something went wrong."]
    , Html.elem "p" "mt-2" none [Html.text "Our team has been notified."]
    , Html.elem "button" "mt-4 px-4 py-2 bg-blue-600 text-white rounded-lg shadow-md hover:bg-blue-700"
        (some Event.retry) [Html.text "Try again?"]
    ]

/-- `render()` (lines 32 to 49): the fallback view if `this.state.hasError`,
otherwise `this.props.children` returned unchanged. -/
def ErrorBoundary.render (s : BoundaryState) (children : Html) : Html :=
  if s.hasError then fallbackView else children

/-- Clicking a handler of the rendered view: the retry control invokes
`handleRetry` (line 39 of the source wires `onClick` to it). -/
def dispatchClick : Event → BoundaryState → BoundaryState
  | Event.retry, s => ErrorBoundary.handleRetry s

/-- Outcome of one invocation of the monitoring reporter
(`Sentry.captureException`): it returns normally or throws synchronously. -/
inductive ReporterOutcome where
  | ok
  | threw : String → ReporterOutcome
deriving DecidableEq, Repr

/-- The monitoring reporter capability, `report(error, context)`. -/
abbrev Reporter := ErrorObj → Ctx → ReporterOutcome

/-- Observable steps of the interception protocol: the console log, the
invocation of the monitoring reporter, and the state update. -/
inductive Step where
  | consoleLog : String → ErrorObj → ErrorInfo → Step
  | sentryCapture : ErrorObj → Ctx → Step
  | setHasError : Bool → Step
deriving DecidableEq, Repr

/-- Recognizes the reporter-invocation step. -/
def Step.isCapture : Step → Bool
  | Step.sentryCapture _ _ => true
  | _ => false

/-- `componentDidCatch(error, errorInfo)` (lines 21 to 26): logs
`"Error caught in ErrorBoundary:"` with the error and the info, then calls
`Sentry.captureException(error, \x7b extra: errorInfo \x7d)`. The first
component lists the performed steps in source order. The body contains no
try/catch, so if the reporter throws synchronously the exception escapes
the method; the second component is that escaping exception, if any. -/
def ErrorBoundary.componentDidCatch (reporter : Reporter) (error : ErrorObj)
    (errorInfo : ErrorInfo) : List Step × Option String :=
  let ctx : Ctx := { extra := errorInfo }
  ([Step.consoleLog "Error caught in ErrorBoundary:" error errorInfo,
    Step.sentryCapture error ctx],
   match reporter error ctx with
   | ReporterOutcome.ok => none
   | ReporterOutcome.threw m => some m)

/-- Result of one intercepted descendant error: the steps performed, the
resulting boundary state, and any exception escaping the handler. -/
structure InterceptResult where
  steps : List Step
  state : BoundaryState
  thrown : Option String
deriving DecidableEq, Repr

/-- Modelled from the spec: the dispatch the hosting framework performs
when a descendant throws during render (the `Intercept(error, renderInfo)`
operation of section 4.1). The framework runs `componentDidCatch` (whose
internal order, log then report, is fixed by the source) and derives the
new state with `getDerivedStateFromError`; per the spec the state update
is not conditioned on the outcome of the reporting call, so it is recorded
unconditionally, after the two handler steps. -/
def intercept (reporter : Reporter) (error : ErrorObj) (errorInfo : ErrorInfo) :
    InterceptResult :=
  let handler := ErrorBoundary.componentDidCatch reporter error errorInfo
  { steps := handler.1 ++ [Step.setHasError ErrorBoundary.getDerivedStateFromError.hasError]
  , state := ErrorBoundary.getDerivedStateFromError
  , thrown := handler.2 }

/-- Result of mounting the boundary over a child and letting the framework
render once. -/
structure MountResult where
  state : BoundaryState
  steps : List Step
  view : Html
  thrown : Option String
deriving Repr

/-- Modelled from the spec: the hosting framework contract of section 6.
The boundary mounts with `initialState` and renders its children; when
evaluating the children throws (`renderError = some e`), the framework
invokes the interception protocol and re-renders the boundary in the new
state, with the same `children` prop. -/
def mountWithChild (reporter : Reporter) (children : Html)
    (renderError : Option ErrorObj) (info : ErrorInfo) : MountResult :=
  match renderError with
  | none =>
      { state := initialState, steps := [],
        view := ErrorBoundary.render initialState children, thrown := none }
  | some e =>
      let r := intercept reporter e info
      { state := r.state, steps := r.steps,
        view := ErrorBoundary.render r.state children, thrown := r.thrown }

/-- Operations that can reach the boundary after mount: the framework
intercepting a descendant render error, or the user invoking retry. -/
inductive BoundaryOp where
  | interceptError
  | retry
deriving DecidableEq, Repr

/-- The state transition each operation induces, per the source methods. -/
def stepOp : BoundaryState → BoundaryOp → BoundaryState
  | _, BoundaryOp.interceptError => ErrorBoundary.getDerivedStateFromError
  | s, BoundaryOp.retry => ErrorBoundary.handleRetry s

/-- A boundary together with the private state of its descendant subtree,
of an arbitrary type `σ`. -/
structure World (σ : Type) where
  boundary : BoundaryState
  childState : σ
deriving DecidableEq, Repr

/-- Retry as it acts on a world: `handleRetry` calls `setState` on the
state of the boundary only (lines 28 to 30); it has no access to, and so
leaves untouched, the descendant state. -/
def World.retry {σ : Type} (w : World σ) : World σ :=
  { w with boundary := ErrorBoundary.handleRetry w.boundary }

/-- The component tree produced by the application shell `pages/_app.tsx`:
a page, the error boundary wrapping a subtree, or the Apollo provider
wrapping a subtree with a named client. -/
inductive AppTree where
  | page : String → List (String × String) → AppTree
  | boundary : AppTree → AppTree
  | provider : String → AppTree → AppTree
deriving DecidableEq, Repr

/-- `App(\x7b Component, pageProps \x7d)` (lines 7 to 15 of `_app.tsx`):
`ApolloProvider client=\x7bclient\x7d` around `ErrorBoundary` around
`Component \x7b...pageProps\x7d`. -/
def App (component : String) (pageProps : List (String × String)) : AppTree :=
  AppTree.provider "client" (AppTree.boundary (AppTree.page component pageProps))

/-- Recognizes the provider node. -/
def AppTree.isProvider : AppTree → Bool
  | AppTree.provider _ _ => true
  | _ => false

/-- Recognizes the boundary node. -/
def AppTree.isBoundary : AppTree → Bool
  | AppTree.boundary _ => true
  | _ => false

/-- The immediate child of a wrapper node, if any. -/
def AppTree.inner : AppTree → Option AppTree
  | AppTree.provider _ c => some c
  | AppTree.boundary c => some c
  | AppTree.page _ _ => none

mutual

/-- Does some node of the tree satisfy the predicate? -/
def Html.containsNode (p : Html → Bool) : Html → Bool
  | Html.text s => p (Html.text s)
  | Html.elem t c o kids => p (Html.elem t c o kids) || Html.listContains p kids

/-- Does some node of one of the trees satisfy the predicate? -/
def Html.listContains (p : Html → Bool) : List Html → Bool
  | [] => false
  | h :: t => Html.containsNode p h || Html.listContains p t

end

/-- An `h2` holding exactly the failure heading text of the source. -/
def isFailureHeading : Html → Bool
  | Html.elem "h2" _ _ [Html.text m] => m = "Oops! Something went wrong."
  | _ => false

/-- A `p` holding exactly the explanatory message text of the source. -/
def isExplanatoryMessage : Html → Bool
  | Html.elem "p" _ _ [Html.text m] => m = "Our team has been notified."
  | _ => false

/-- A `button` whose click handler is the retry handler. -/
def isRetryButton : Html → Bool
  | Html.elem "button" _ (some Event.retry) _ => true
  | _ => false

/-- The monitoring reporter failing synchronously with a fixed message. -/
def alwaysThrowReporter : Reporter := fun _ _ => ReporterOutcome.threw "report failed"

/-- The monitoring reporter completing normally on every call. -/
def alwaysOkReporter : Reporter := fun _ _ => ReporterOutcome.ok

/-- C1: render is a pure function of the boundary state. When hasError is
false it returns the children unchanged; when hasError is true it returns
the fixed fallback view, which holds a failure heading, an explanatory
message and a retry control. -/
theorem render_pure_of_state (s : BoundaryState) (c : Html) :
    (s.hasError = false → ErrorBoundary.render s c = c) ∧
    (s.hasError = true →
      ErrorBoundary.render s c = fallbackView ∧
      Html.containsNode isFailureHeading fallbackView = true ∧
      Html.containsNode isExplanatoryMessage fallbackView = true ∧
      Html.containsNode isRetryButton fallbackView = true) := by
  constructor
  · intro h
    simp [ErrorBoundary.render, h]
  · intro h
    exact ⟨by simp [ErrorBoundary.render, h], rfl, rfl, rfl⟩

/-- Witness for C1 at a concrete state and child. -/
theorem render_pure_of_state_witness :
    ErrorBoundary.render { hasError := false } (Html.text "child") = Html.text "child" ∧
    ErrorBoundary.render { hasError := true } (Html.text "child") = fallbackView :=
  ⟨(render_pure_of_state { hasError := false } (Html.text "child")).1 rfl,
   ((render_pure_of_state { hasError := true } (Html.text "child")).2 rfl).1⟩

/-- C2: the state machine of the boundary. The initial state is Healthy;
an intercepted descendant error takes Healthy to Faulted; retry takes
Faulted to Healthy; no operation other than retry leaves Faulted; and
from every state some operation changes the state, so the two states
cycle indefinitely and neither is terminal. -/
theorem boundary_state_machine :
    initialState = { hasError := false } ∧
    stepOp { hasError := false } BoundaryOp.interceptError = { hasError := true } ∧
    stepOp { hasError := true } BoundaryOp.retry = { hasError := false } ∧
    (∀ op, op ≠ BoundaryOp.retry → stepOp { hasError := true } op = { hasError := true }) ∧
    (∀ s : BoundaryState, ∃ op, stepOp s op ≠ s) := by
  refine ⟨rfl, rfl, rfl, ?_, ?_⟩
  · intro op h
    cases op with
    | interceptError => rfl
    | retry => exact absurd rfl h
  · intro s
    cases s with
    | mk b =>
      cases b with
      | false => exact ⟨BoundaryOp.interceptError, by decide⟩
      | true => exact ⟨BoundaryOp.retry, by decide⟩

/-- Witness for C2: the one operation other than retry does not leave
Faulted. -/
theorem boundary_state_machine_witness :
    stepOp { hasError := true } BoundaryOp.interceptError = { hasError := true } :=
  boundary_state_machine.2.2.2.1 BoundaryOp.interceptError (by decide)

/-- C3: for every reporter, including one that throws on every call, the
state after interception has hasError = true and renders the fallback
view, and the state does not depend on which reporter was used. -/
theorem report_outcome_never_affects_state (r1 r2 : Reporter) (e : ErrorObj)
    (i : ErrorInfo) (c : Html) :
    (intercept r1 e i).state.hasError = true ∧
    ErrorBoundary.render (intercept r1 e i).state c = fallbackView ∧
    (intercept r1 e i).state = (intercept r2 e i).state ∧
    (intercept alwaysThrowReporter e i).state.hasError = true :=
  ⟨rfl, rfl, rfl, rfl⟩

/-- C4 counterexample: componentDidCatch has no local exception handling,
so when the reporting call throws, the failure escapes to the caller
instead of being swallowed inside the method. -/
theorem componentDidCatch_propagates_reporter_failure :
    (ErrorBoundary.componentDidCatch alwaysThrowReporter { message := "x" }
      { componentStack := "at Child" }).2 = some "report failed" := rfl

/-- C4 amended: componentDidCatch performs no exception handling of its
own; it throws nothing exactly when the reporting call returns normally,
which the fire-and-forget contract of the reporter guarantees, and a
synchronous throw from the reporter escapes to the caller. -/
theorem componentDidCatch_noThrow_of_reporter_ok (r : Reporter) (e : ErrorObj)
    (i : ErrorInfo) (h : r e { extra := i } = ReporterOutcome.ok) :
    (ErrorBoundary.componentDidCatch r e i).2 = none := by
  simp [ErrorBoundary.componentDidCatch, h]

/-- Witness for the amended C4 with a reporter that completes normally. -/
theorem componentDidCatch_noThrow_witness :
    (ErrorBoundary.componentDidCatch alwaysOkReporter { message := "x" }
      { componentStack := "at Child" }).2 = none :=
  componentDidCatch_noThrow_of_reporter_ok alwaysOkReporter { message := "x" }
    { componentStack := "at Child" } rfl

/-- C5: the steps of an intercepted descendant error, in order: the
console log with the error and the render-phase info, the reporter
invocation with the error and the structured context, and then the state
update to hasError = true. The relative order of the two handler steps is
fixed by the source; the position of the state update is the one the
specification prescribes for the framework dispatch. -/
theorem intercept_step_order (r : Reporter) (e : ErrorObj) (i : ErrorInfo) :
    (intercept r e i).steps =
      [Step.consoleLog "Error caught in ErrorBoundary:" e i,
       Step.sentryCapture e { extra := i },
       Step.setHasError true] := rfl

/-- C6: per intercepted error the reporter is invoked exactly once, with
that very error and the non-null structured context; a child that renders
successfully produces no reporter invocation; for a child throwing an
error with message x, the single invocation carries message x. -/
theorem reporter_called_once_per_error (r : Reporter) (c : Html) (i : ErrorInfo) :
    (∀ e, (mountWithChild r c (some e) i).steps.filter Step.isCapture
        = [Step.sentryCapture e { extra := i }]) ∧
    (mountWithChild r c none i).steps.filter Step.isCapture = [] ∧
    (mountWithChild r c (some { message := "x" }) i).steps.filter Step.isCapture
        = [Step.sentryCapture { message := "x" } { extra := i }] :=
  ⟨fun _ => rfl, rfl, rfl⟩

/-- C7: the boundary is transparent when healthy: rendering with
hasError = false returns the children subtree itself, unchanged. -/
theorem render_transparent_when_healthy (s : BoundaryState) (c : Html)
    (h : s.hasError = false) : ErrorBoundary.render s c = c := by
  simp [ErrorBoundary.render, h]

/-- Witness for C7 at a concrete child. -/
theorem render_transparent_witness :
    ErrorBoundary.render { hasError := false } (Html.text "page") = Html.text "page" :=
  render_transparent_when_healthy { hasError := false } (Html.text "page") rfl

/-- C8: retry from the Faulted state resets hasError to false, so the next
render returns the children subtree again, and it leaves the state of the
descendant subtree untouched. -/
theorem retry_resets_and_reattempts {σ : Type} (w : World σ) (c : Html)
    (_h : w.boundary.hasError = true) :
    (World.retry w).boundary.hasError = false ∧
    (World.retry w).childState = w.childState ∧
    ErrorBoundary.render (World.retry w).boundary c = c :=
  ⟨rfl, rfl, rfl⟩

/-- Witness for C8 at a concrete world. -/
theorem retry_resets_witness :
    (World.retry { boundary := { hasError := true }, childState := (7 : Nat) }).boundary.hasError
      = false :=
  (retry_resets_and_reattempts { boundary := { hasError := true }, childState := (7 : Nat) }
    (Html.text "again") rfl).1

/-- C9: the application shell is pure structural composition: the provider
is outermost, its immediate child is the boundary, the immediate child of
the boundary is the page with the props passed through unchanged, and the
page wraps nothing further. -/
theorem app_shell_composition (component : String) (pageProps : List (String × String)) :
    (App component pageProps).isProvider = true ∧
    (App component pageProps).inner
      = some (AppTree.boundary (AppTree.page component pageProps)) ∧
    (AppTree.boundary (AppTree.page component pageProps)).isBoundary = true ∧
    (AppTree.boundary (AppTree.page component pageProps)).inner
      = some (AppTree.page component pageProps) ∧
    (AppTree.page component pageProps).inner = none :=
  ⟨rfl, rfl, rfl, rfl, rfl⟩

/-- C10: the state produced by interception is independent of the content
of the error: any two errors, with any render-phase infos, yield the same
state and the same rendered view, namely the fixed fallback view. Only the
log and report steps carry the error value. -/
theorem intercepted_state_independent_of_error (r : Reporter) (e1 e2 : ErrorObj)
    (i1 i2 : ErrorInfo) (c : Html) :
    (intercept r e1 i1).state = (intercept r e2 i2).state ∧
    ErrorBoundary.render (intercept r e1 i1).state c
      = ErrorBoundary.render (intercept r e2 i2).state c ∧
    ErrorBoundary.render (intercept r e1 i1).state c = fallbackView :=
  ⟨rfl, rfl, rfl⟩
